import Mathlib

/-!
Shallow embedding of the per-attempt pipeline of `src/crawlers/browser_crawler.js`
(class `BrowserCrawler`): the constructor's option handling, `_handleRequestFunction`,
`_handleNavigation`, `_navigationHandler`, `_responseHandler`, `_executeHooks`,
`_extendLaunchContext` and `_maybeAddSessionRetiredListener`.

JavaScript in-place mutation is modelled as explicit state passing; awaited effectful
operations are modelled by an environment record describing their outcome for one attempt,
and every observable effect is recorded in an ordered trace of `Action`s.
-/

namespace ApifyBrowserCrawler

/-- Errors an attempt can raise, mirroring the raise sites of the pipeline. -/
inductive CrawlErr where
  | cookieRestoreError : CrawlErr
  | navigationError : CrawlErr
  | hookFailure (hid : Nat) : CrawlErr
  | missingGotoFunction : CrawlErr
  | blockedResponse (statusCode : Nat) : CrawlErr
  | cookieCaptureError : CrawlErr
  | handlerError : CrawlErr
  | timeout (msg : String) : CrawlErr
  | typeError : CrawlErr
deriving DecidableEq, Repr

/-- Modelled from the spec: the Session collaborator (`src/session_pool/session_pool.js` is
not under src/). It carries an identity id, the configured blocked status set consulted by
`throwOnBlockedRequest`, a cookie jar of stored (cookies, url) entries, and health flags. -/
structure Session where
  id : Nat
  blockedStatusCodes : List Nat
  cookieJar : List (List String × Option String)
  good : Bool
  retired : Bool
deriving DecidableEq, Repr

/-- Modelled from the spec: `Session.setPuppeteerCookies` stores the given page cookies into
the session's jar keyed by the given url. -/
def Session.setPuppeteerCookies (s : Session) (cookies : List String) (url : Option String) :
    Session :=
  { s with cookieJar := (cookies, url) :: s.cookieJar }

/-- Modelled from the spec: `Session.markGood` marks the session healthy. -/
def Session.markGood (s : Session) : Session :=
  { s with good := true }

/-- Request data the orchestrator touches: the requested url and `loadedUrl`
(set during response handling). -/
structure Request where
  url : String
  loadedUrl : Option String
deriving DecidableEq, Repr

/-- A navigation response as `_responseHandler` inspects it: either it exposes a status-code
accessor (`typeof response.status === 'function'`) or it is malformed. -/
inductive JsResponse where
  | withStatus (code : Nat) : JsResponse
  | malformed : JsResponse
deriving DecidableEq, Repr

/-- The navigation options value (`gotoOptions`) that hooks may mutate, as a key/value bag. -/
abbrev GotoOptions := List (String × Nat)

/-- A navigation hook: identified by `hid` for tracing; its body reads and mutates the shared
navigation options (mutation modelled as state passing) or raises. -/
structure Hook where
  hid : Nat
  run : GotoOptions → Except CrawlErr GotoOptions

/-- Observable effects of the pipeline, in order of occurrence. -/
inductive Action where
  | newPage : Action
  | setCookiesOnPage : Action
  | runHook (hid : Nat) : Action
  | navigate : Action
  | retireSession : Action
  | logMalformedResponse : Action
  | setLoadedUrl (url : String) : Action
  | captureCookies : Action
  | storeCookies (url : Option String) : Action
  | invokeHandler : Action
  | markGoodA : Action
  | closePage : Action
  | logCloseError : Action
  | setSessionRetiredFlag : Action
  | retireController : Action
  | removeListenerA : Action
deriving DecidableEq, Repr

/-- Modelled from the spec: `throwOnBlockedRequest` (`src/crawlers/crawler_utils.js` is not
under src/). It checks the status against the session's configured blocked set; on a member
it retires the session and raises a blocked-response error, otherwise it does nothing. -/
def throwOnBlockedRequest (session : Session) (statusCode : Nat) :
    Except CrawlErr Unit × Session × List Action :=
  if statusCode ∈ session.blockedStatusCodes then
    (Except.error (CrawlErr.blockedResponse statusCode),
     { session with retired := true }, [Action.retireSession])
  else
    (Except.ok (), session, [])

/-- Result of `_responseHandler`: the propagated result, the (possibly retired) session, the
(possibly updated) request, and the effect trace. -/
structure RHOut where
  result : Except CrawlErr Unit
  session : Option Session
  request : Request
  acts : List Action
deriving Repr

/-- The classification part of `_responseHandler`: the `if (this.sessionPool && response)`
guard around the status-accessor check and the blocked-status check. -/
def classifyResponse (hasSessionPool : Bool) (response : Option JsResponse)
    (session : Option Session) : Except CrawlErr Unit × Option Session × List Action :=
  if hasSessionPool && response.isSome then
    match response, session with
    | some (JsResponse.withStatus code), some s =>
      let r := throwOnBlockedRequest s code
      (r.1, some r.2.1, r.2.2)
    | some (JsResponse.withStatus _), none =>
      (Except.error CrawlErr.typeError, none, [])
    | some JsResponse.malformed, _ =>
      (Except.ok (), session, [Action.logMalformedResponse])
    | none, _ => (Except.ok (), session, [])
  else (Except.ok (), session, [])

/-- Shallow embedding of `BrowserCrawler._responseHandler`: when a session pool exists and a
response is present, a response exposing a status accessor goes through the blocked-status
check (which may retire the session and raise) while a malformed response is only logged;
after that, `request.loadedUrl` is recorded from the live page url. -/
def responseHandler (hasSessionPool : Bool) (response : Option JsResponse) (pageUrl : String)
    (session : Option Session) (request : Request) : RHOut :=
  match classifyResponse hasSessionPool response session with
  | (Except.error e, s', a) =>
    { result := Except.error e, session := s', request := request, acts := a }
  | (Except.ok _, s', a) =>
    { result := Except.ok (), session := s',
      request := { request with loadedUrl := some pageUrl },
      acts := a ++ [Action.setLoadedUrl pageUrl] }

/-- Shallow embedding of `BrowserCrawler._executeHooks`: awaits each hook strictly in
registration order over the shared navigation options; a raising hook stops the loop and
propagates its error. -/
def executeHooks : List Hook → GotoOptions → Except CrawlErr GotoOptions × List Action
  | [], g => (Except.ok g, [])
  | h :: rest, g =>
    match h.run g with
    | Except.error e => (Except.error e, [Action.runHook h.hid])
    | Except.ok g' =>
      ((executeHooks rest g').1, Action.runHook h.hid :: (executeHooks rest g').2)

/-- Shallow embedding of `BrowserCrawler._navigationHandler`: raises when no `gotoFunction`
is configured, otherwise delegates to it with the (hook-mutated) navigation options. -/
def navigationHandler
    (gotoFunction : Option (GotoOptions → Except CrawlErr (Option JsResponse)))
    (g : GotoOptions) : Except CrawlErr (Option JsResponse) × List Action :=
  match gotoFunction with
  | none => (Except.error CrawlErr.missingGotoFunction, [])
  | some f => (f g, [Action.navigate])

/-- The `BrowserCrawler` configuration fields the per-attempt pipeline reads. -/
structure Crawler where
  handlePageTimeoutSecs : Nat
  persistCookiesPerSession : Bool
  hasSessionPool : Bool
  gotoFunction : Option (GotoOptions → Except CrawlErr (Option JsResponse))
  preNavigationHooks : List Hook
  postNavigationHooks : List Hook
  gotoOptions : GotoOptions

/-- `handlePageTimeoutMillis` as computed in the constructor: seconds times 1000. -/
def Crawler.handlePageTimeoutMillis (c : Crawler) : Nat :=
  c.handlePageTimeoutSecs * 1000

/-- The message passed to `addTimeoutToPromise`, built in the source from
`handlePageTimeoutMillis / 1000`. -/
def Crawler.timeoutMessage (c : Crawler) : String :=
  "handlePageFunction timed out after " ++ toString (c.handlePageTimeoutMillis / 1000)
    ++ " seconds."

/-- Outcome of `_handleNavigation`: the response stored on the crawling context, plus the
navigation-options value at the moment the navigation delegate was invoked. -/
structure NavOut where
  response : Option JsResponse
  optsAtNavigation : GotoOptions

/-- Shallow embedding of `BrowserCrawler._handleNavigation`: clones the `gotoOptions`
template, runs the pre-navigation hooks over it, invokes the navigation delegate with the
mutated options, then runs the post-navigation hooks over the same options value. -/
def handleNavigation (c : Crawler) : Except CrawlErr NavOut × List Action :=
  match executeHooks c.preNavigationHooks c.gotoOptions with
  | (Except.error e, t1) => (Except.error e, t1)
  | (Except.ok g1, t1) =>
    match navigationHandler c.gotoFunction g1 with
    | (Except.error e, tn) => (Except.error e, t1 ++ tn)
    | (Except.ok resp, tn) =>
      match executeHooks c.postNavigationHooks g1 with
      | (Except.error e, t2) => (Except.error e, t1 ++ tn ++ t2)
      | (Except.ok _, t2) =>
        (Except.ok { response := resp, optsAtNavigation := g1 }, t1 ++ tn ++ t2)

/-- How the user handler behaves on one attempt, as observed by `addTimeoutToPromise`
(modelled from the spec: `addTimeoutToPromise` lives in `src/utils.js`, not under src/):
it completes in time (successfully or with an error), or it exceeds the timeout. -/
inductive HandlerBehavior where
  | completesOk : HandlerBehavior
  | completesErr (e : CrawlErr) : HandlerBehavior
  | exceedsTimeout : HandlerBehavior
deriving DecidableEq, Repr

/-- The external world of one attempt: the request, the session bound to the page's browser
(if any), the outcomes of the awaited browser-controller and page operations, and the
handler's behavior. -/
structure AttemptEnv where
  request : Request
  session : Option Session
  setCookiesFails : Bool
  getCookiesFails : Bool
  pageCookies : List String
  pageUrl : String
  handlerBehavior : HandlerBehavior
  pageCloseFails : Bool

/-- Result of one attempt: the propagated result, the final request and session objects
(mutated in place in the source), and the ordered effect trace. -/
structure AttemptOutcome where
  result : Except CrawlErr Unit
  request : Request
  session : Option Session
  trace : List Action

/-- The cookie-saving step of `_handleRequestFunction`: when persistence is enabled, the
current page cookies are read from the browser controller and stored into the session keyed
by `request.loadedUrl`. The source places this step between `_responseHandler` and
`handlePageFunction`. -/
def saveCookiesStep (c : Crawler) (env : AttemptEnv) (rh : RHOut) :
    Except CrawlErr Unit × Option Session × List Action :=
  if c.persistCookiesPerSession then
    if env.getCookiesFails then
      (Except.error CrawlErr.cookieCaptureError, rh.session, [Action.captureCookies])
    else
      match rh.session with
      | some s =>
        (Except.ok (),
         some (s.setPuppeteerCookies env.pageCookies rh.request.loadedUrl),
         [Action.captureCookies, Action.storeCookies rh.request.loadedUrl])
      | none => (Except.error CrawlErr.typeError, rh.session, [Action.captureCookies])
  else (Except.ok (), rh.session, [])

/-- The body of the `try` block of `_handleRequestFunction`: navigation (hooks plus
delegate), response handling, cookie capture — placed by the source between
`_responseHandler` and `handlePageFunction` — then the handler under a timeout, then
`markGood` when a session is present. -/
def tryBody (c : Crawler) (env : AttemptEnv) : AttemptOutcome :=
  match handleNavigation c with
  | (Except.error e, t) =>
    { result := Except.error e, request := env.request, session := env.session, trace := t }
  | (Except.ok nav, t) =>
    let rh := responseHandler c.hasSessionPool nav.response env.pageUrl env.session env.request
    match rh.result with
    | Except.error e =>
      { result := Except.error e, request := rh.request, session := rh.session,
        trace := t ++ rh.acts }
    | Except.ok _ =>
      match saveCookiesStep c env rh with
      | (Except.error e, s', a) =>
        { result := Except.error e, request := rh.request, session := s',
          trace := t ++ rh.acts ++ a }
      | (Except.ok _, s', a) =>
        match env.handlerBehavior with
        | HandlerBehavior.exceedsTimeout =>
          { result := Except.error (CrawlErr.timeout c.timeoutMessage),
            request := rh.request, session := s',
            trace := t ++ rh.acts ++ a ++ [Action.invokeHandler] }
        | HandlerBehavior.completesErr e =>
          { result := Except.error e, request := rh.request, session := s',
            trace := t ++ rh.acts ++ a ++ [Action.invokeHandler] }
        | HandlerBehavior.completesOk =>
          match s' with
          | some s =>
            { result := Except.ok (), request := rh.request, session := some s.markGood,
              trace := t ++ rh.acts ++ a ++ [Action.invokeHandler, Action.markGoodA] }
          | none =>
            { result := Except.ok (), request := rh.request, session := none,
              trace := t ++ rh.acts ++ a ++ [Action.invokeHandler] }

/-- Shallow embedding of `BrowserCrawler._handleRequestFunction`: opens a page, restores the
session's cookies when persistence is enabled — the source does this before entering the
`try`/`finally` — runs the try body, and closes the page in the `finally` block, swallowing
(only logging) close errors. -/
def handleRequestFunction (c : Crawler) (env : AttemptEnv) : AttemptOutcome :=
  let restore : Except CrawlErr Unit × List Action :=
    if c.persistCookiesPerSession then
      match env.session with
      | none => (Except.error CrawlErr.typeError, [])
      | some _ =>
        if env.setCookiesFails then
          (Except.error CrawlErr.cookieRestoreError, [Action.setCookiesOnPage])
        else (Except.ok (), [Action.setCookiesOnPage])
    else (Except.ok (), [])
  match restore with
  | (Except.error e, a) =>
    { result := Except.error e, request := env.request, session := env.session,
      trace := Action.newPage :: a }
  | (Except.ok _, a) =>
    let body := tryBody c env
    { result := body.result, request := body.request, session := body.session,
      trace := Action.newPage :: (a ++ body.trace ++ [Action.closePage]
        ++ (if env.pageCloseFails then [Action.logCloseError] else [])) }

/-- Constructor options the modelled pipeline reads; `none` means the option was omitted and
the constructor default applies. -/
structure CrawlerOptions where
  handlePageTimeoutSecs : Option Nat := none
  persistCookiesPerSession : Option Bool := none
  useSessionPool : Option Bool := none
  gotoFunction : Option (GotoOptions → Except CrawlErr (Option JsResponse)) := none
  preNavigationHooks : Option (List Hook) := none
  postNavigationHooks : Option (List Hook) := none

/-- Construction-time effects, in the order the constructor performs them. -/
inductive CtorEffect where
  | superInitialized : CtorEffect
  | sessionPoolConstructed : CtorEffect
  | browserPoolConstructed : CtorEffect
deriving DecidableEq, Repr

/-- Shallow embedding of the `BrowserCrawler` constructor: applies option defaults, raises
the configuration error when `persistCookiesPerSession` is requested without
`useSessionPool`, and otherwise initializes the base crawler, constructs the session pool
(when enabled) and the browser pool, in that order. -/
def browserCrawlerConstructor (opts : CrawlerOptions) : Except String Crawler × List CtorEffect :=
  let handlePageTimeoutSecs := opts.handlePageTimeoutSecs.getD 60
  let persistCookiesPerSession := opts.persistCookiesPerSession.getD true
  let useSessionPool := opts.useSessionPool.getD true
  let preNavigationHooks := opts.preNavigationHooks.getD []
  let postNavigationHooks := opts.postNavigationHooks.getD []
  if !useSessionPool && persistCookiesPerSession then
    (Except.error
      "You cannot use \"persistCookiesPerSession\" without \"useSessionPool\" set to true.",
     [])
  else
    (Except.ok
      { handlePageTimeoutSecs := handlePageTimeoutSecs,
        persistCookiesPerSession := persistCookiesPerSession,
        hasSessionPool := useSessionPool,
        gotoFunction := opts.gotoFunction,
        preNavigationHooks := preNavigationHooks,
        postNavigationHooks := postNavigationHooks,
        gotoOptions := [] },
     [CtorEffect.superInitialized]
       ++ (if useSessionPool then [CtorEffect.sessionPoolConstructed] else [])
       ++ [CtorEffect.browserPoolConstructed])

/-- A resolved proxy identity: the proxy url and the session id it was scoped to. -/
structure ProxyInfo where
  url : String
  sessionId : Option Nat
deriving DecidableEq, Repr

/-- The proxy-configuration collaborator: `newProxyInfo(sessionId?)` resolves a
`ProxyInfo`. -/
structure ProxyConfig where
  newProxyInfo : Option Nat → ProxyInfo

/-- Fields contributed through `LaunchContext.extend`; the source builds this record as
`launchContextExtends`. The proxy url is deliberately not a field here: the source assigns
it directly onto the launch context, never through `extend`. -/
structure LaunchExtends where
  session : Option Session := none
  proxyInfo : Option ProxyInfo := none
  sessionRetired : Option Bool := none

/-- Per-browser launch context; `extendedKeys` records which keys were contributed via the
additive `extend` mechanism (as opposed to direct assignment). -/
structure LaunchContext where
  proxyUrl : Option String := none
  session : Option Session := none
  proxyInfo : Option ProxyInfo := none
  sessionRetired : Option Bool := none
  extendedKeys : List String := []

/-- Modelled from the spec: `LaunchContext.extend` (from the browser-pool collaborator, not
under src/) — an additive key/value merge into the launch context that never overwrites a
key already set. -/
def LaunchContext.extend (lc : LaunchContext) (e : LaunchExtends) : LaunchContext :=
  { lc with
    session := match lc.session with | some s => some s | none => e.session,
    proxyInfo := match lc.proxyInfo with | some p => some p | none => e.proxyInfo,
    sessionRetired :=
      match lc.sessionRetired with | some b => some b | none => e.sessionRetired,
    extendedKeys := lc.extendedKeys
      ++ (if e.session.isSome then ["session"] else [])
      ++ (if e.proxyInfo.isSome then ["proxyInfo"] else [])
      ++ (if e.sessionRetired.isSome then ["sessionRetired"] else []) }

/-- Shallow embedding of `BrowserCrawler._extendLaunchContext`: when a session pool exists
its session goes into `launchContextExtends`; when proxy configuration is present a
`ProxyInfo` scoped to the assigned session's id is resolved, the proxy url is assigned
directly onto the launch context, and the `ProxyInfo` joins `launchContextExtends`; finally
`launchContext.extend` merges the contributions. -/
def extendLaunchContext (sessionFromPool : Option Session)
    (proxyConfiguration : Option ProxyConfig) (lc : LaunchContext) : LaunchContext :=
  let ext1 : LaunchExtends := { session := sessionFromPool }
  match proxyConfiguration with
  | some pc =>
    let proxyInfo := pc.newProxyInfo (ext1.session.map Session.id)
    let lc1 := { lc with proxyUrl := some proxyInfo.url }
    LaunchContext.extend lc1 { ext1 with proxyInfo := some proxyInfo }
  | none => LaunchContext.extend lc ext1

/-- State of one browser controller's session-retired bookkeeping: its launch context,
whether the session-retired listener is still subscribed, and how many times
`retireBrowserController` has been requested for it. -/
structure BridgeState where
  launchContext : LaunchContext
  listenerInstalled : Bool
  retireCount : Nat

/-- Events the bridge reacts to: a session-pool retirement event carrying the retired
session's id, and the controller reporting that the browser closed. -/
inductive PoolEvent where
  | sessionRetiredEvt (sid : Nat) : PoolEvent
  | browserClosed : PoolEvent
deriving DecidableEq, Repr

/-- Shallow embedding of the listener installed by `_maybeAddSessionRetiredListener`: on a
retirement event whose session id equals the launch context's bound session id, it extends
the launch context with `sessionRetired = true` and retires the browser controller;
otherwise it does nothing. A bound session is always present when the listener is
installed, because `_extendLaunchContext` ran with the same session pool. -/
def sessionRetiredListener (st : BridgeState) (sid : Nat) : BridgeState × List Action :=
  match st.launchContext.session with
  | some bound =>
    if sid = bound.id then
      ({ st with
          launchContext := st.launchContext.extend { sessionRetired := some true },
          retireCount := st.retireCount + 1 },
       [Action.setSessionRetiredFlag, Action.retireController])
    else (st, [])
  | none => (st, [])

/-- One step of the retirement bridge: retirement events reach the listener only while it is
subscribed; the `browserClosed` notification removes the listener. -/
def bridgeStep (st : BridgeState) (ev : PoolEvent) : BridgeState × List Action :=
  match ev with
  | PoolEvent.sessionRetiredEvt sid =>
    if st.listenerInstalled then sessionRetiredListener st sid else (st, [])
  | PoolEvent.browserClosed =>
    ({ st with listenerInstalled := false }, [Action.removeListenerA])

/-- Shallow embedding of `_maybeAddSessionRetiredListener`: subscribes the listener exactly
when a session pool exists. -/
def maybeAddSessionRetiredListener (hasSessionPool : Bool) (lc : LaunchContext) :
    BridgeState :=
  { launchContext := lc, listenerInstalled := hasSessionPool, retireCount := 0 }

/-! Concrete sample data, used to evaluate the theorems below on closed inputs. -/

/-- A sample session with the standard blocked status codes. -/
def sW : Session :=
  { id := 7, blockedStatusCodes := [401, 403, 429], cookieJar := [], good := false,
    retired := false }

/-- A sample request. -/
def reqW : Request := { url := "http://start.example/", loadedUrl := none }

/-- A navigation delegate returning a normal (status 200) response. -/
def gotoOkW : GotoOptions → Except CrawlErr (Option JsResponse) :=
  fun _ => Except.ok (some (JsResponse.withStatus 200))

/-- A navigation delegate returning a blocked (status 403) response. -/
def gotoBlockedW : GotoOptions → Except CrawlErr (Option JsResponse) :=
  fun _ => Except.ok (some (JsResponse.withStatus 403))

/-- A sample crawler: cookie persistence on, session pool on, no hooks, 1-second handler
timeout. -/
def cW : Crawler :=
  { handlePageTimeoutSecs := 1, persistCookiesPerSession := true, hasSessionPool := true,
    gotoFunction := some gotoOkW, preNavigationHooks := [], postNavigationHooks := [],
    gotoOptions := [] }

/-- The sample crawler steering into a blocked response, with persistence off. -/
def cBlockedW : Crawler :=
  { cW with gotoFunction := some gotoBlockedW, persistCookiesPerSession := false }

/-- The sample crawler without a session pool (and hence without persistence). -/
def cNoPoolW : Crawler :=
  { cW with hasSessionPool := false, persistCookiesPerSession := false }

/-- A sample attempt environment in which every awaited operation succeeds. -/
def envW : AttemptEnv :=
  { request := reqW, session := some sW, setCookiesFails := false, getCookiesFails := false,
    pageCookies := ["sid=abc"], pageUrl := "http://landed.example/page",
    handlerBehavior := HandlerBehavior.completesOk, pageCloseFails := false }

/-- A hook that records key "t" with value 30 into the shared navigation options. -/
def hookSetW : Hook := { hid := 1, run := fun g => Except.ok (("t", 30) :: g) }

/-- A hook that raises. -/
def hookFailW : Hook := { hid := 2, run := fun _ => Except.error (CrawlErr.hookFailure 2) }

/-- The sample crawler with the mutating pre-navigation hook installed. -/
def cHooksW : Crawler :=
  { cW with preNavigationHooks := [hookSetW], persistCookiesPerSession := false }

/-- The sample crawler with a failing pre-navigation hook installed. -/
def cHookFailW : Crawler :=
  { cW with preNavigationHooks := [hookFailW], persistCookiesPerSession := false }

/-- A fresh launch context bound to the sample session. -/
def lcBoundW : LaunchContext := { session := some sW }

/-- A sample proxy configuration echoing the session id it was scoped to. -/
def pcW : ProxyConfig :=
  { newProxyInfo := fun sid => { url := "http://proxy.example:8000", sessionId := sid } }

end ApifyBrowserCrawler

namespace ApifyBrowserCrawler

/-! Helper lemmas shared by the claim theorems below. -/

/-- The timeout message spells out the configured timeout in seconds, since the source
divides `handlePageTimeoutMillis` (seconds times 1000) by 1000. -/
theorem timeoutMessage_eq (c : Crawler) :
    c.timeoutMessage =
      "handlePageFunction timed out after " ++ toString c.handlePageTimeoutSecs
        ++ " seconds." := by
  unfold Crawler.timeoutMessage Crawler.handlePageTimeoutMillis
  have h : c.handlePageTimeoutSecs * 1000 / 1000 = c.handlePageTimeoutSecs := by omega
  rw [h]

/-- Every trace entry of the hook pipeline is a hook invocation. -/
theorem executeHooks_trace_shape (hooks : List Hook) (g : GotoOptions) :
    ∀ a ∈ (executeHooks hooks g).2, ∃ hid, a = Action.runHook hid := by
  induction hooks generalizing g with
  | nil => intro a ha; simp [executeHooks] at ha
  | cons h rest ih =>
    intro a ha
    unfold executeHooks at ha
    cases hr : h.run g with
    | error e =>
      rw [hr] at ha
      simp at ha
      exact ⟨h.hid, ha⟩
    | ok g' =>
      rw [hr] at ha
      simp only [List.mem_cons] at ha
      rcases ha with rfl | ha
      · exact ⟨h.hid, rfl⟩
      · exact ih g' a ha

/-- The navigation delegate wrapper emits at most the delegate-call entry. -/
theorem navigationHandler_trace_shape
    (gf : Option (GotoOptions → Except CrawlErr (Option JsResponse))) (g : GotoOptions) :
    ∀ a ∈ (navigationHandler gf g).2, a = Action.navigate := by
  cases gf <;> simp [navigationHandler]

/-- Trace entries of `_handleNavigation` are hook invocations or the delegate call. -/
theorem handleNavigation_trace_shape (c : Crawler) :
    ∀ a ∈ (handleNavigation c).2,
      (∃ hid, a = Action.runHook hid) ∨ a = Action.navigate := by
  intro a ha
  unfold handleNavigation at ha
  have hpre2 := executeHooks_trace_shape c.preNavigationHooks c.gotoOptions
  rcases hpre : executeHooks c.preNavigationHooks c.gotoOptions with ⟨r1, t1⟩
  rw [hpre] at ha hpre2
  dsimp only at hpre2
  cases r1 with
  | error e => exact Or.inl (hpre2 a ha)
  | ok g1 =>
    dsimp only at ha
    have hnh2 := navigationHandler_trace_shape c.gotoFunction g1
    rcases hnh : navigationHandler c.gotoFunction g1 with ⟨rn, tn⟩
    rw [hnh] at ha hnh2
    dsimp only at hnh2
    cases rn with
    | error e =>
      dsimp only at ha
      simp only [List.mem_append] at ha
      rcases ha with ha | ha
      · exact Or.inl (hpre2 a ha)
      · exact Or.inr (hnh2 a ha)
    | ok resp =>
      dsimp only at ha
      have hpost2 := executeHooks_trace_shape c.postNavigationHooks g1
      rcases hpost : executeHooks c.postNavigationHooks g1 with ⟨r2, t2⟩
      rw [hpost] at ha hpost2
      dsimp only at hpost2
      cases r2 with
      | error e =>
        dsimp only at ha
        simp only [List.mem_append] at ha
        rcases ha with (ha | ha) | ha
        · exact Or.inl (hpre2 a ha)
        · exact Or.inr (hnh2 a ha)
        · exact Or.inl (hpost2 a ha)
      | ok g2 =>
        dsimp only at ha
        simp only [List.mem_append] at ha
        rcases ha with (ha | ha) | ha
        · exact Or.inl (hpre2 a ha)
        · exact Or.inr (hnh2 a ha)
        · exact Or.inl (hpost2 a ha)

end ApifyBrowserCrawler

namespace ApifyBrowserCrawler

/-- With no session pool the classification guard short-circuits: no check, no retirement,
no error. -/
theorem classifyResponse_false (resp : Option JsResponse) (sess : Option Session) :
    classifyResponse false resp sess = (Except.ok (), sess, []) := by
  simp [classifyResponse]

/-- Classification only ever emits the session-retirement or the malformed-response log. -/
theorem classifyResponse_acts_shape (hp : Bool) (resp : Option JsResponse)
    (sess : Option Session) :
    ∀ a ∈ (classifyResponse hp resp sess).2.2,
      a = Action.retireSession ∨ a = Action.logMalformedResponse := by
  intro a ha
  unfold classifyResponse throwOnBlockedRequest at ha
  cases hp with
  | false => simp at ha
  | true =>
    cases resp with
    | none => simp at ha
    | some jr =>
      cases jr with
      | malformed => simp at ha; exact Or.inr ha
      | withStatus code =>
        cases sess with
        | none => simp at ha
        | some s =>
          by_cases hb : code ∈ s.blockedStatusCodes
          · simp [hb] at ha; exact Or.inl ha
          · simp [hb] at ha

/-- Classification preserves the presence of a session. -/
theorem classifyResponse_session_isSome (hp : Bool) (resp : Option JsResponse)
    (sess : Option Session) (h : sess.isSome = true) :
    ((classifyResponse hp resp sess).2.1).isSome = true := by
  unfold classifyResponse throwOnBlockedRequest
  cases hp with
  | false => simpa using h
  | true =>
    cases resp with
    | none => simpa using h
    | some jr =>
      cases jr with
      | malformed => simpa using h
      | withStatus code =>
        cases sess with
        | none => simp at h
        | some s =>
          by_cases hb : code ∈ s.blockedStatusCodes <;> simp [hb]

/-- With no session pool, `_responseHandler` performs no check at all and just records
`loadedUrl` from the live page url. -/
theorem responseHandler_false (resp : Option JsResponse) (u : String)
    (sess : Option Session) (req : Request) :
    responseHandler false resp u sess req =
      { result := Except.ok (), session := sess,
        request := { req with loadedUrl := some u },
        acts := [Action.setLoadedUrl u] } := by
  unfold responseHandler
  rw [classifyResponse_false]
  rfl

/-- The acts of `_responseHandler` are retirement, the malformed log, or the loadedUrl
recording. -/
theorem responseHandler_acts_shape (hp : Bool) (resp : Option JsResponse) (u : String)
    (sess : Option Session) (req : Request) :
    ∀ a ∈ (responseHandler hp resp u sess req).acts,
      a = Action.retireSession ∨ a = Action.logMalformedResponse
        ∨ a = Action.setLoadedUrl u := by
  intro a ha
  unfold responseHandler at ha
  have hcl2 := classifyResponse_acts_shape hp resp sess
  rcases hcl : classifyResponse hp resp sess with ⟨r, s', acts⟩
  rw [hcl] at ha hcl2
  dsimp only at hcl2
  cases r with
  | error e =>
    dsimp only at ha
    rcases hcl2 a ha with h | h
    · exact Or.inl h
    · exact Or.inr (Or.inl h)
  | ok _ =>
    dsimp only at ha
    simp only [List.mem_append, List.mem_singleton] at ha
    rcases ha with ha | rfl
    · rcases hcl2 a ha with h | h
      · exact Or.inl h
      · exact Or.inr (Or.inl h)
    · exact Or.inr (Or.inr rfl)

/-- `_responseHandler` preserves the presence of a session. -/
theorem responseHandler_session_isSome (hp : Bool) (resp : Option JsResponse) (u : String)
    (sess : Option Session) (req : Request) (h : sess.isSome = true) :
    ((responseHandler hp resp u sess req).session).isSome = true := by
  unfold responseHandler
  have hcl2 := classifyResponse_session_isSome hp resp sess h
  rcases hcl : classifyResponse hp resp sess with ⟨r, s', acts⟩
  rw [hcl] at hcl2
  dsimp only at hcl2
  cases r with
  | error e => exact hcl2
  | ok _ => exact hcl2

/-- Whenever `_responseHandler` completes without raising, it has recorded `loadedUrl` from
the live page url. -/
theorem responseHandler_ok_loadedUrl (hp : Bool) (resp : Option JsResponse) (u : String)
    (sess : Option Session) (req : Request)
    (h : (responseHandler hp resp u sess req).result = Except.ok ()) :
    (responseHandler hp resp u sess req).request.loadedUrl = some u := by
  unfold responseHandler at h ⊢
  rcases hcl : classifyResponse hp resp sess with ⟨r, s', acts⟩
  rw [hcl] at h
  cases r with
  | error e => simp at h
  | ok _ => rfl

/-- The cookie-saving step only ever captures and stores cookies. -/
theorem saveCookiesStep_acts_shape (c : Crawler) (env : AttemptEnv) (rh : RHOut) :
    ∀ a ∈ (saveCookiesStep c env rh).2.2,
      a = Action.captureCookies ∨ a = Action.storeCookies rh.request.loadedUrl := by
  intro a ha
  unfold saveCookiesStep at ha
  by_cases hp : c.persistCookiesPerSession = true
  · by_cases hg : env.getCookiesFails = true
    · simp [hp, hg] at ha; exact Or.inl ha
    · cases hs : rh.session with
      | none => simp [hp, hg, hs] at ha; exact Or.inl ha
      | some s =>
        simp [hp, hg, hs] at ha
        rcases ha with rfl | rfl
        · exact Or.inl rfl
        · exact Or.inr rfl
  · simp [hp] at ha

/-- The cookie-saving step under cookie persistence with a live session: captures the page
cookies and stores them into the session keyed by `request.loadedUrl`. -/
theorem saveCookiesStep_persist (c : Crawler) (env : AttemptEnv) (rh : RHOut) (s : Session)
    (hper : c.persistCookiesPerSession = true) (hgc : env.getCookiesFails = false)
    (hs : rh.session = some s) :
    saveCookiesStep c env rh =
      (Except.ok (), some (s.setPuppeteerCookies env.pageCookies rh.request.loadedUrl),
       [Action.captureCookies, Action.storeCookies rh.request.loadedUrl]) := by
  simp [saveCookiesStep, hper, hgc, hs]

/-- The cookie-saving step is skipped when persistence is disabled. -/
theorem saveCookiesStep_skip (c : Crawler) (env : AttemptEnv) (rh : RHOut)
    (hper : c.persistCookiesPerSession = false) :
    saveCookiesStep c env rh = (Except.ok (), rh.session, []) := by
  simp [saveCookiesStep, hper]

/-- Whenever the cookie-restore stage passes (page acquired, persistence either disabled or
restore succeeding on a live session), the attempt is the try body bracketed by the page
open and the guaranteed page close. -/
theorem handleRequestFunction_restore_ok (c : Crawler) (env : AttemptEnv)
    (h : c.persistCookiesPerSession = true →
      env.session.isSome = true ∧ env.setCookiesFails = false) :
    handleRequestFunction c env =
      { result := (tryBody c env).result, request := (tryBody c env).request,
        session := (tryBody c env).session,
        trace := Action.newPage ::
          ((if c.persistCookiesPerSession then [Action.setCookiesOnPage] else [])
            ++ (tryBody c env).trace ++ [Action.closePage]
            ++ (if env.pageCloseFails then [Action.logCloseError] else [])) } := by
  unfold handleRequestFunction
  by_cases hp : c.persistCookiesPerSession = true
  · obtain ⟨hs, hf⟩ := h hp
    rcases henv : env.session with _ | s
    · rw [henv] at hs; simp at hs
    · simp [hp, henv, hf]
  · have hp2 : c.persistCookiesPerSession = false := by
      revert hp; cases c.persistCookiesPerSession <;> simp
    simp [hp2]

end ApifyBrowserCrawler

namespace ApifyBrowserCrawler

/-- Every trace entry of the try body is a hook invocation, the delegate call, a
response-handling act, a cookie-capture act, the handler invocation, or the markGood
call. -/
theorem tryBody_trace_split (c : Crawler) (env : AttemptEnv) :
    ∀ a ∈ (tryBody c env).trace,
      (∃ hid, a = Action.runHook hid) ∨ a = Action.navigate
      ∨ (∃ resp,
          a ∈ (responseHandler c.hasSessionPool resp env.pageUrl env.session env.request).acts)
      ∨ a = Action.captureCookies ∨ (∃ u, a = Action.storeCookies u)
      ∨ a = Action.invokeHandler ∨ a = Action.markGoodA := by
  intro a ha
  unfold tryBody at ha
  have hnav2 := handleNavigation_trace_shape c
  rcases hnav : handleNavigation c with ⟨rn, t⟩
  rw [hnav] at ha hnav2
  dsimp only at hnav2
  cases rn with
  | error e =>
    dsimp only at ha
    rcases hnav2 a ha with h | h
    · exact Or.inl h
    · exact Or.inr (Or.inl h)
  | ok nav =>
    dsimp only at ha
    cases hres :
        (responseHandler c.hasSessionPool nav.response env.pageUrl env.session
          env.request).result with
    | error e =>
      rw [hres] at ha
      dsimp only at ha
      simp only [List.mem_append] at ha
      rcases ha with ha | ha
      · rcases hnav2 a ha with h | h
        · exact Or.inl h
        · exact Or.inr (Or.inl h)
      · exact Or.inr (Or.inr (Or.inl ⟨nav.response, ha⟩))
    | ok u4 =>
      rw [hres] at ha
      dsimp only at ha
      have hsave2 := saveCookiesStep_acts_shape c env
        (responseHandler c.hasSessionPool nav.response env.pageUrl env.session env.request)
      rcases hsave : saveCookiesStep c env
          (responseHandler c.hasSessionPool nav.response env.pageUrl env.session
            env.request) with ⟨rs, s', aa⟩
      rw [hsave] at ha hsave2
      dsimp only at hsave2
      cases rs with
      | error e =>
        dsimp only at ha
        simp only [List.mem_append] at ha
        rcases ha with (ha | ha) | ha
        · rcases hnav2 a ha with h | h
          · exact Or.inl h
          · exact Or.inr (Or.inl h)
        · exact Or.inr (Or.inr (Or.inl ⟨nav.response, ha⟩))
        · rcases hsave2 a ha with h | h
          · exact Or.inr (Or.inr (Or.inr (Or.inl h)))
          · exact Or.inr (Or.inr (Or.inr (Or.inr (Or.inl ⟨_, h⟩))))
      | ok u5 =>
        dsimp only at ha
        have dispatch :
            a ∈ t
              ∨ a ∈ (responseHandler c.hasSessionPool nav.response env.pageUrl env.session
                  env.request).acts
              ∨ a ∈ aa ∨ a = Action.invokeHandler ∨ a = Action.markGoodA →
            (∃ hid, a = Action.runHook hid) ∨ a = Action.navigate
            ∨ (∃ resp,
                a ∈ (responseHandler c.hasSessionPool resp env.pageUrl env.session
                    env.request).acts)
            ∨ a = Action.captureCookies ∨ (∃ u, a = Action.storeCookies u)
            ∨ a = Action.invokeHandler ∨ a = Action.markGoodA := by
          intro hd
          rcases hd with hd | hd | hd | hd | hd
          · rcases hnav2 a hd with h | h
            · exact Or.inl h
            · exact Or.inr (Or.inl h)
          · exact Or.inr (Or.inr (Or.inl ⟨nav.response, hd⟩))
          · rcases hsave2 a hd with h | h
            · exact Or.inr (Or.inr (Or.inr (Or.inl h)))
            · exact Or.inr (Or.inr (Or.inr (Or.inr (Or.inl ⟨_, h⟩))))
          · exact Or.inr (Or.inr (Or.inr (Or.inr (Or.inr (Or.inl hd)))))
          · exact Or.inr (Or.inr (Or.inr (Or.inr (Or.inr (Or.inr hd)))))
        cases hhb : env.handlerBehavior with
        | exceedsTimeout =>
          rw [hhb] at ha
          dsimp only at ha
          simp only [List.mem_append, List.mem_singleton] at ha
          refine dispatch ?_
          tauto
        | completesErr e =>
          rw [hhb] at ha
          dsimp only at ha
          simp only [List.mem_append, List.mem_singleton] at ha
          refine dispatch ?_
          tauto
        | completesOk =>
          rw [hhb] at ha
          dsimp only at ha
          cases hs : s' with
          | some s6 =>
            rw [hs] at ha
            dsimp only at ha
            simp only [List.mem_append, List.mem_cons, List.mem_singleton,
              List.not_mem_nil, or_false] at ha
            refine dispatch ?_
            tauto
          | none =>
            rw [hs] at ha
            dsimp only at ha
            simp only [List.mem_append, List.mem_singleton] at ha
            refine dispatch ?_
            tauto

/-- The try body never closes the page: page close lives in the finally block outside it. -/
theorem tryBody_no_closePage (c : Crawler) (env : AttemptEnv) :
    Action.closePage ∉ (tryBody c env).trace := by
  intro ha
  rcases tryBody_trace_split c env _ ha with ⟨hid, h⟩ | h | ⟨resp, h⟩ | h | ⟨u, h⟩ | h | h
  · simp at h
  · simp at h
  · rcases responseHandler_acts_shape c.hasSessionPool resp env.pageUrl env.session
        env.request _ h with h2 | h2 | h2 <;> simp at h2
  · simp at h
  · simp at h
  · simp at h
  · simp at h

/-- Without a session pool the try body never retires a session. -/
theorem tryBody_no_retireSession (c : Crawler) (env : AttemptEnv)
    (hc : c.hasSessionPool = false) :
    Action.retireSession ∉ (tryBody c env).trace := by
  intro ha
  rcases tryBody_trace_split c env _ ha with ⟨hid, h⟩ | h | ⟨resp, h⟩ | h | ⟨u, h⟩ | h | h
  · simp at h
  · simp at h
  · rw [hc, responseHandler_false] at h
    simp at h
  · simp at h
  · simp at h
  · simp at h
  · simp at h

end ApifyBrowserCrawler

namespace ApifyBrowserCrawler

/-- Every trace entry of an attempt is the page open, the cookie restore, a try-body act,
the page close, or the close-error log. -/
theorem handleRequestFunction_trace_split (c : Crawler) (env : AttemptEnv) :
    ∀ a ∈ (handleRequestFunction c env).trace,
      a = Action.newPage ∨ a = Action.setCookiesOnPage ∨ a ∈ (tryBody c env).trace
        ∨ a = Action.closePage ∨ a = Action.logCloseError := by
  intro a ha
  unfold handleRequestFunction at ha
  cases hp : c.persistCookiesPerSession <;>
    cases hpcf : env.pageCloseFails <;>
      rcases hsess : env.session with _ | s <;>
        cases hsc : env.setCookiesFails <;>
          simp only [hp, hpcf, hsess, hsc, Bool.false_eq_true, if_false, if_true,
            List.mem_cons, List.mem_append, List.mem_singleton, List.not_mem_nil,
            or_false] at ha <;>
          tauto

end ApifyBrowserCrawler

namespace ApifyBrowserCrawler

/-- Claim C4: constructing the crawler with persistCookiesPerSession explicitly true and
useSessionPool explicitly false raises the configuration error inside the constructor, with
no base-crawler initialization and no session pool, browser pool, or browser created or
touched (the construction-effect list is empty). -/
theorem claim4_config_error_before_construction (opts : CrawlerOptions)
    (hper : opts.persistCookiesPerSession = some true)
    (hpool : opts.useSessionPool = some false) :
    browserCrawlerConstructor opts =
      (Except.error
        "You cannot use \"persistCookiesPerSession\" without \"useSessionPool\" set to true.",
       []) := by
  unfold browserCrawlerConstructor
  rw [hper, hpool]
  rfl

/-- Witness for C4 at a concrete options record. -/
theorem claim4_witness :
    browserCrawlerConstructor
        { persistCookiesPerSession := some true, useSessionPool := some false } =
      (Except.error
        "You cannot use \"persistCookiesPerSession\" without \"useSessionPool\" set to true.",
       []) :=
  claim4_config_error_before_construction
    { persistCookiesPerSession := some true, useSessionPool := some false } rfl rfl

/-- Claim C9: on a fresh launch context, with proxy configuration present and a session
assigned from the pool, the proxy info is requested scoped to the session's id, the
resolved proxy url and the ProxyInfo object both land in the launch context, and the
session and the proxy info (and only they) are contributed via the additive extend
mechanism — the proxy url is assigned directly, not through extend. -/
theorem claim9_proxy_scoped_to_session (s : Session) (pc : ProxyConfig)
    (lc : LaunchContext) (hsess : lc.session = none) (hpi : lc.proxyInfo = none)
    (hkeys : lc.extendedKeys = []) :
    (extendLaunchContext (some s) (some pc) lc).proxyUrl
        = some (pc.newProxyInfo (some s.id)).url
    ∧ (extendLaunchContext (some s) (some pc) lc).proxyInfo
        = some (pc.newProxyInfo (some s.id))
    ∧ (extendLaunchContext (some s) (some pc) lc).session = some s
    ∧ (extendLaunchContext (some s) (some pc) lc).extendedKeys
        = ["session", "proxyInfo"] := by
  unfold extendLaunchContext LaunchContext.extend
  simp [hsess, hpi, hkeys]

/-- Witness for C9 at a concrete session, proxy configuration, and fresh launch context. -/
theorem claim9_witness :
    (extendLaunchContext (some sW) (some pcW) {}).proxyUrl
        = some (pcW.newProxyInfo (some sW.id)).url
    ∧ (extendLaunchContext (some sW) (some pcW) {}).proxyInfo
        = some (pcW.newProxyInfo (some sW.id))
    ∧ (extendLaunchContext (some sW) (some pcW) {}).session = some sW
    ∧ (extendLaunchContext (some sW) (some pcW) {}).extendedKeys
        = ["session", "proxyInfo"] :=
  claim9_proxy_scoped_to_session sW pcW {} rfl rfl rfl

/-- Claim C7: with the session-retired listener installed and a session bound into the
launch context, a retirement event with the matching session id sets sessionRetired on the
launch context and requests controller retirement exactly once; an event with a
non-matching session id changes nothing and emits no action; and once the controller
reports browserClosed the listener is removed, so any further retirement event changes
nothing and emits no action. -/
theorem claim7_retirement_bridge (lc : LaunchContext) (s : Session) (sidM sidN : Nat)
    (hbound : lc.session = some s) (hfresh : lc.sessionRetired = none)
    (hmatch : sidM = s.id) (hmiss : sidN ≠ s.id) :
    ((bridgeStep (maybeAddSessionRetiredListener true lc)
        (PoolEvent.sessionRetiredEvt sidM)).1.launchContext.sessionRetired = some true
      ∧ List.count Action.retireController
          (bridgeStep (maybeAddSessionRetiredListener true lc)
            (PoolEvent.sessionRetiredEvt sidM)).2 = 1
      ∧ (bridgeStep (maybeAddSessionRetiredListener true lc)
          (PoolEvent.sessionRetiredEvt sidM)).1.retireCount = 1)
    ∧ bridgeStep (maybeAddSessionRetiredListener true lc)
        (PoolEvent.sessionRetiredEvt sidN)
        = (maybeAddSessionRetiredListener true lc, [])
    ∧ ∀ sid3,
        bridgeStep
          (bridgeStep (maybeAddSessionRetiredListener true lc) PoolEvent.browserClosed).1
          (PoolEvent.sessionRetiredEvt sid3)
        = ((bridgeStep (maybeAddSessionRetiredListener true lc) PoolEvent.browserClosed).1,
           []) := by
  unfold bridgeStep maybeAddSessionRetiredListener sessionRetiredListener
    LaunchContext.extend
  refine ⟨⟨?_, ?_, ?_⟩, ?_, ?_⟩
  · simp [hbound, hfresh, hmatch]
  · simp [hbound, hmatch]
  · simp [hbound, hmatch]
  · simp [hbound, hmiss]
  · intro sid3
    simp [hbound]

/-- Witness for C7 at a concrete launch context and session ids. -/
theorem claim7_witness :
    ((bridgeStep (maybeAddSessionRetiredListener true lcBoundW)
        (PoolEvent.sessionRetiredEvt 7)).1.launchContext.sessionRetired = some true
      ∧ List.count Action.retireController
          (bridgeStep (maybeAddSessionRetiredListener true lcBoundW)
            (PoolEvent.sessionRetiredEvt 7)).2 = 1
      ∧ (bridgeStep (maybeAddSessionRetiredListener true lcBoundW)
          (PoolEvent.sessionRetiredEvt 7)).1.retireCount = 1)
    ∧ bridgeStep (maybeAddSessionRetiredListener true lcBoundW)
        (PoolEvent.sessionRetiredEvt 8)
        = (maybeAddSessionRetiredListener true lcBoundW, [])
    ∧ ∀ sid3,
        bridgeStep
          (bridgeStep (maybeAddSessionRetiredListener true lcBoundW)
            PoolEvent.browserClosed).1
          (PoolEvent.sessionRetiredEvt sid3)
        = ((bridgeStep (maybeAddSessionRetiredListener true lcBoundW)
            PoolEvent.browserClosed).1, []) :=
  claim7_retirement_bridge lcBoundW sW 7 8 rfl rfl rfl (by decide)

/-- Claim C10: for a crawler without a session pool, the response-classification step
performs no blocked-status check at all: for every response, session and request,
_responseHandler succeeds, leaves the session untouched, emits no retirement and proceeds
directly to recording loadedUrl; consequently no attempt of such a crawler ever emits a
session retirement. -/
theorem claim10_no_pool_no_blocked_check (c : Crawler) (env : AttemptEnv)
    (resp : Option JsResponse) (u : String) (sess : Option Session) (req : Request)
    (hc : c.hasSessionPool = false) :
    responseHandler c.hasSessionPool resp u sess req =
      { result := Except.ok (), session := sess,
        request := { req with loadedUrl := some u },
        acts := [Action.setLoadedUrl u] }
    ∧ Action.retireSession ∉ (handleRequestFunction c env).trace := by
  constructor
  · rw [hc]
    exact responseHandler_false resp u sess req
  · intro ha
    rcases handleRequestFunction_trace_split c env _ ha with h | h | h | h | h
    · simp at h
    · simp at h
    · exact tryBody_no_retireSession c env hc h
    · simp at h
    · simp at h

/-- Witness for C10 at the concrete session-pool-free crawler, with a status (403) that
would be blocked if the check ran. -/
theorem claim10_witness :
    responseHandler cNoPoolW.hasSessionPool (some (JsResponse.withStatus 403))
        "http://landed.example/page" (some sW) reqW =
      { result := Except.ok (), session := some sW,
        request := { reqW with loadedUrl := some "http://landed.example/page" },
        acts := [Action.setLoadedUrl "http://landed.example/page"] }
    ∧ Action.retireSession ∉ (handleRequestFunction cNoPoolW envW).trace :=
  claim10_no_pool_no_blocked_check cNoPoolW envW (some (JsResponse.withStatus 403))
    "http://landed.example/page" (some sW) reqW rfl

end ApifyBrowserCrawler

namespace ApifyBrowserCrawler

/-- Claim C5: hooks run strictly sequentially in registration order over the shared
navigation-options value — the first hook's output is the state the remaining hooks (and,
on success of the whole pre-navigation pipeline, the navigation delegate) see; a raising
hook stops the pipeline (no remaining hook runs, its trace ends at the raising hook) and
its error is what the attempt fails with. -/
theorem claim5_hooks_sequential_shared_options (h1 : Hook) (rest : List Hook)
    (g g1 : GotoOptions) (e : CrawlErr) (c : Crawler) (env : AttemptEnv) (nav : NavOut)
    (t : List Action) :
    (h1.run g = Except.ok g1 →
      executeHooks (h1 :: rest) g
        = ((executeHooks rest g1).1, Action.runHook h1.hid :: (executeHooks rest g1).2))
    ∧ (h1.run g = Except.error e →
      executeHooks (h1 :: rest) g = (Except.error e, [Action.runHook h1.hid]))
    ∧ ((executeHooks c.preNavigationHooks c.gotoOptions).1 = Except.ok g1 →
      handleNavigation c = (Except.ok nav, t) → nav.optsAtNavigation = g1)
    ∧ (c.persistCookiesPerSession = false →
      handleNavigation c = (Except.error e, t) →
      (handleRequestFunction c env).result = Except.error e) := by
  refine ⟨?_, ?_, ?_, ?_⟩
  · intro h
    conv_lhs => rw [executeHooks]
    rw [h]
  · intro h
    unfold executeHooks
    rw [h]
  · intro hpre hnav
    unfold handleNavigation at hnav
    rcases hpre2 : executeHooks c.preNavigationHooks c.gotoOptions with ⟨r1, t1⟩
    rw [hpre2] at hpre hnav
    dsimp only at hpre
    subst hpre
    dsimp only at hnav
    rcases hnh : navigationHandler c.gotoFunction g1 with ⟨rn, tn⟩
    rw [hnh] at hnav
    cases rn with
    | error e2 => dsimp only at hnav; cases hnav
    | ok resp =>
      dsimp only at hnav
      rcases hpost : executeHooks c.postNavigationHooks g1 with ⟨r2, t2⟩
      rw [hpost] at hnav
      cases r2 with
      | error e2 => dsimp only at hnav; cases hnav
      | ok g2 =>
        dsimp only at hnav
        have hinj := congrArg Prod.fst hnav
        dsimp only at hinj
        cases hinj
        rfl
  · intro hp hnav
    have hrestore : c.persistCookiesPerSession = true →
        env.session.isSome = true ∧ env.setCookiesFails = false := by
      intro hq
      rw [hp] at hq
      cases hq
    rw [handleRequestFunction_restore_ok c env hrestore]
    dsimp only
    unfold tryBody
    rw [hnav]

/-- Witness for C5: a concrete mutating hook followed by a failing hook, the delegate
seeing the mutated options, and a hook failure failing the whole attempt. -/
theorem claim5_witness :
    executeHooks [hookSetW, hookFailW] []
      = ((executeHooks [hookFailW] [("t", 30)]).1,
         Action.runHook 1 :: (executeHooks [hookFailW] [("t", 30)]).2)
    ∧ executeHooks [hookFailW] [] = (Except.error (CrawlErr.hookFailure 2), [Action.runHook 2])
    ∧ (NavOut.optsAtNavigation
        { response := some (JsResponse.withStatus 200), optsAtNavigation := [("t", 30)] }
        = [("t", 30)])
    ∧ (handleRequestFunction cHookFailW envW).result
        = Except.error (CrawlErr.hookFailure 2) :=
  ⟨(claim5_hooks_sequential_shared_options hookSetW [hookFailW] [] [("t", 30)]
      (CrawlErr.hookFailure 2) cHooksW envW
      { response := some (JsResponse.withStatus 200), optsAtNavigation := [("t", 30)] }
      [Action.runHook 1, Action.navigate]).1 rfl,
   (claim5_hooks_sequential_shared_options hookFailW [] [] []
      (CrawlErr.hookFailure 2) cHooksW envW
      { response := some (JsResponse.withStatus 200), optsAtNavigation := [("t", 30)] }
      [Action.runHook 1, Action.navigate]).2.1 rfl,
   (claim5_hooks_sequential_shared_options hookSetW [] [] [("t", 30)]
      (CrawlErr.hookFailure 2) cHooksW envW
      { response := some (JsResponse.withStatus 200), optsAtNavigation := [("t", 30)] }
      [Action.runHook 1, Action.navigate]).2.2.1 rfl rfl,
   (claim5_hooks_sequential_shared_options hookSetW [] [] []
      (CrawlErr.hookFailure 2) cHookFailW envW
      { response := none, optsAtNavigation := [] }
      [Action.runHook 2]).2.2.2 rfl rfl⟩

end ApifyBrowserCrawler

namespace ApifyBrowserCrawler

/-- Claim C8 fails as stated: on an attempt whose navigation succeeds but whose response is
classified blocked, `_responseHandler` raises before reaching the `loadedUrl` assignment,
so `request.loadedUrl` is never set for that attempt. -/
theorem claim8_counterexample :
    (handleNavigation cBlockedW).1
        = Except.ok { response := some (JsResponse.withStatus 403), optsAtNavigation := [] }
    ∧ (handleRequestFunction cBlockedW envW).request.loadedUrl = none := by
  exact ⟨rfl, rfl⟩

/-- Claim C8 (amended): for every attempt whose navigation succeeds and whose response
handling completes without raising (in particular whenever the response is not classified
blocked), `request.loadedUrl` is set from the live page url at response-handling time —
capturing redirects — and not from the originally requested url (the request's own url
plays no role in the recorded value). -/
theorem claim8_loadedUrl_from_live_page (c : Crawler) (env : AttemptEnv) (nav : NavOut)
    (t : List Action)
    (hrestore : c.persistCookiesPerSession = true →
      env.session.isSome = true ∧ env.setCookiesFails = false)
    (hnav : handleNavigation c = (Except.ok nav, t))
    (hrh : (responseHandler c.hasSessionPool nav.response env.pageUrl env.session
        env.request).result = Except.ok ()) :
    (handleRequestFunction c env).request.loadedUrl = some env.pageUrl := by
  rw [handleRequestFunction_restore_ok c env hrestore]
  dsimp only
  unfold tryBody
  rw [hnav]
  dsimp only
  rw [hrh]
  dsimp only
  split
  · exact responseHandler_ok_loadedUrl _ _ _ _ _ hrh
  · split
    · exact responseHandler_ok_loadedUrl _ _ _ _ _ hrh
    · exact responseHandler_ok_loadedUrl _ _ _ _ _ hrh
    · split
      · exact responseHandler_ok_loadedUrl _ _ _ _ _ hrh
      · exact responseHandler_ok_loadedUrl _ _ _ _ _ hrh

/-- Witness for the amended C8 at a concrete successful attempt: the recorded url is the
live page url, although the request had asked for a different one. -/
theorem claim8_witness :
    (handleRequestFunction cW envW).request.loadedUrl = some "http://landed.example/page" :=
  claim8_loadedUrl_from_live_page cW envW
    { response := some (JsResponse.withStatus 200), optsAtNavigation := [] }
    [Action.navigate] (fun _ => ⟨rfl, rfl⟩) rfl rfl

end ApifyBrowserCrawler

namespace ApifyBrowserCrawler

/-- Claim C1 fails as stated: with cookie persistence enabled, an error raised in the
cookie-restore stage (the browser controller's setCookies call) propagates with zero
page-close calls, because the source performs the restore before entering the try/finally
that guarantees the close. -/
theorem claim1_counterexample :
    (handleRequestFunction cW { envW with setCookiesFails := true }).result
        = Except.error CrawlErr.cookieRestoreError
    ∧ List.count Action.closePage
        (handleRequestFunction cW { envW with setCookiesFails := true }).trace = 0 := by
  exact ⟨rfl, rfl⟩

/-- Claim C1 (amended): for every attempt whose cookie-restore stage does not raise
(persistence disabled, or a live session whose cookie restore succeeds), page close is
invoked exactly once before the attempt's error or result propagates, no matter which
later stage — navigation, hooks, response classification, cookie capture, or the user
handler — raises; if the cookie restore itself raises, no page close occurs. -/
theorem claim1_page_closed_exactly_once (c : Crawler) (env : AttemptEnv)
    (hrestore : c.persistCookiesPerSession = true →
      env.session.isSome = true ∧ env.setCookiesFails = false) :
    List.count Action.closePage (handleRequestFunction c env).trace = 1 := by
  rw [handleRequestFunction_restore_ok c env hrestore]
  dsimp only
  have hbody : List.count Action.closePage (tryBody c env).trace = 0 :=
    List.count_eq_zero.mpr (tryBody_no_closePage c env)
  by_cases hp : c.persistCookiesPerSession = true <;>
    by_cases hpcf : env.pageCloseFails = true <;>
      simp [hp, hpcf, List.count_cons, List.count_append, hbody]

/-- Witness for the amended C1 at a concrete attempt (the user handler fails; the page is
still closed exactly once). -/
theorem claim1_witness :
    List.count Action.closePage
      (handleRequestFunction cW
        { envW with handlerBehavior := HandlerBehavior.exceedsTimeout }).trace = 1 :=
  claim1_page_closed_exactly_once cW
    { envW with handlerBehavior := HandlerBehavior.exceedsTimeout }
    (fun _ => ⟨rfl, rfl⟩)

end ApifyBrowserCrawler

namespace ApifyBrowserCrawler

/-- Claim C2 fails as stated: with cookie persistence enabled, the page cookies are captured
and stored before the user handler is invoked, so a handler failure does not prevent the
capture — the full trace of a concrete attempt with a failing handler shows the capture and
store occurring, followed by the handler invocation, with the attempt ending in the handler
error. -/
theorem claim2_counterexample :
    (handleRequestFunction cW
        { envW with handlerBehavior := HandlerBehavior.completesErr CrawlErr.handlerError
        }).result = Except.error CrawlErr.handlerError
    ∧ (handleRequestFunction cW
        { envW with handlerBehavior := HandlerBehavior.completesErr CrawlErr.handlerError
        }).trace
      = [Action.newPage, Action.setCookiesOnPage, Action.navigate,
         Action.setLoadedUrl "http://landed.example/page", Action.captureCookies,
         Action.storeCookies (some "http://landed.example/page"), Action.invokeHandler,
         Action.closePage] := by
  exact ⟨rfl, rfl⟩

/-- Claim C2 (amended): with cookie persistence enabled, on every attempt that reaches the
cookie-capture stage (restore, navigation and response handling succeeded, and the cookie
read succeeds), the current page cookies are captured and stored into the session keyed by
`loadedUrl` immediately after response handling and immediately before the user handler is
invoked — not after the handler, and regardless of how the handler then behaves. -/
theorem claim2_capture_before_handler (c : Crawler) (env : AttemptEnv) (s : Session)
    (nav : NavOut) (t : List Action)
    (hper : c.persistCookiesPerSession = true)
    (hsess : env.session = some s)
    (hscf : env.setCookiesFails = false)
    (hgcf : env.getCookiesFails = false)
    (hnav : handleNavigation c = (Except.ok nav, t))
    (hrh : (responseHandler c.hasSessionPool nav.response env.pageUrl env.session
        env.request).result = Except.ok ()) :
    ∃ p q, (handleRequestFunction c env).trace
      = p ++ [Action.captureCookies, Action.storeCookies (some env.pageUrl),
              Action.invokeHandler] ++ q := by
  rw [handleRequestFunction_restore_ok c env (fun _ => ⟨by rw [hsess]; rfl, hscf⟩)]
  dsimp only
  unfold tryBody
  rw [hnav]
  dsimp only
  rw [hrh]
  dsimp only
  have hsome := responseHandler_session_isSome c.hasSessionPool nav.response env.pageUrl
    env.session env.request (by rw [hsess]; rfl)
  obtain ⟨s2, hs2⟩ := Option.isSome_iff_exists.mp hsome
  rw [saveCookiesStep_persist c env _ s2 hper hgcf hs2]
  dsimp only
  have hload := responseHandler_ok_loadedUrl c.hasSessionPool nav.response env.pageUrl
    env.session env.request hrh
  rw [hload]
  cases hhb : env.handlerBehavior with
  | exceedsTimeout =>
    refine ⟨Action.newPage :: Action.setCookiesOnPage ::
      (t ++ (responseHandler c.hasSessionPool nav.response env.pageUrl env.session
        env.request).acts),
      [Action.closePage] ++ (if env.pageCloseFails then [Action.logCloseError] else []),
      ?_⟩
    simp [hper, List.append_assoc]
  | completesErr e =>
    refine ⟨Action.newPage :: Action.setCookiesOnPage ::
      (t ++ (responseHandler c.hasSessionPool nav.response env.pageUrl env.session
        env.request).acts),
      [Action.closePage] ++ (if env.pageCloseFails then [Action.logCloseError] else []),
      ?_⟩
    simp [hper, List.append_assoc]
  | completesOk =>
    refine ⟨Action.newPage :: Action.setCookiesOnPage ::
      (t ++ (responseHandler c.hasSessionPool nav.response env.pageUrl env.session
        env.request).acts),
      [Action.markGoodA, Action.closePage]
        ++ (if env.pageCloseFails then [Action.logCloseError] else []),
      ?_⟩
    simp [hper, List.append_assoc]

/-- Witness for the amended C2 at a concrete attempt with a successful handler. -/
theorem claim2_witness :
    ∃ p q, (handleRequestFunction cW envW).trace
      = p ++ [Action.captureCookies,
              Action.storeCookies (some "http://landed.example/page"),
              Action.invokeHandler] ++ q :=
  claim2_capture_before_handler cW envW sW
    { response := some (JsResponse.withStatus 200), optsAtNavigation := [] }
    [Action.navigate] rfl rfl rfl rfl rfl rfl

end ApifyBrowserCrawler

namespace ApifyBrowserCrawler

/-- Claim C3: with a session pool and a session bound to the attempt, whenever the
successful navigation yields a response exposing a status accessor whose status is in the
session's configured blocked set, the session is retired, the attempt fails with the
blocked-response error, and the user handler is never invoked for that attempt. -/
theorem claim3_blocked_retires_and_skips_handler (c : Crawler) (env : AttemptEnv)
    (s : Session) (nav : NavOut) (t : List Action) (code : Nat)
    (hpool : c.hasSessionPool = true)
    (hsess : env.session = some s)
    (hrestore : c.persistCookiesPerSession = true → env.setCookiesFails = false)
    (hnav : handleNavigation c = (Except.ok nav, t))
    (hresp : nav.response = some (JsResponse.withStatus code))
    (hblocked : code ∈ s.blockedStatusCodes) :
    (handleRequestFunction c env).result = Except.error (CrawlErr.blockedResponse code)
    ∧ (handleRequestFunction c env).session = some { s with retired := true }
    ∧ Action.invokeHandler ∉ (handleRequestFunction c env).trace := by
  have hrest2 : c.persistCookiesPerSession = true →
      env.session.isSome = true ∧ env.setCookiesFails = false :=
    fun hp => ⟨by rw [hsess]; rfl, hrestore hp⟩
  rw [handleRequestFunction_restore_ok c env hrest2]
  dsimp only
  have hrhEq : responseHandler c.hasSessionPool nav.response env.pageUrl env.session
      env.request
      = { result := Except.error (CrawlErr.blockedResponse code),
          session := some { s with retired := true }, request := env.request,
          acts := [Action.retireSession] } := by
    rw [hpool, hresp, hsess]
    unfold responseHandler classifyResponse throwOnBlockedRequest
    simp [hblocked]
  unfold tryBody
  rw [hnav]
  dsimp only
  rw [hrhEq]
  dsimp only
  refine ⟨rfl, rfl, ?_⟩
  intro hmem
  have hshape := handleNavigation_trace_shape c
  rw [hnav] at hshape
  dsimp only at hshape
  have ht : Action.invokeHandler ∉ t := by
    intro hmem2
    rcases hshape _ hmem2 with ⟨hid, h⟩ | h <;> simp at h
  by_cases hp : c.persistCookiesPerSession = true <;>
    by_cases hpcf : env.pageCloseFails = true <;>
      simp [hp, hpcf, List.mem_cons, List.mem_append, ht] at hmem

/-- Witness for C3: a concrete attempt hitting a 403 response. -/
theorem claim3_witness :
    (handleRequestFunction cBlockedW envW).result
        = Except.error (CrawlErr.blockedResponse 403)
    ∧ (handleRequestFunction cBlockedW envW).session = some { sW with retired := true }
    ∧ Action.invokeHandler ∉ (handleRequestFunction cBlockedW envW).trace :=
  claim3_blocked_retires_and_skips_handler cBlockedW envW sW
    { response := some (JsResponse.withStatus 403), optsAtNavigation := [] }
    [Action.navigate] 403 rfl rfl (fun _ => rfl) rfl rfl (by decide)

/-- Claim C6: on every attempt that reaches the user handler and whose handler does not
complete within the configured timeout, the attempt fails with a timeout error whose
message spells out the configured duration in seconds, and the session is never marked
good during that attempt. -/
theorem claim6_timeout_message_no_markGood (c : Crawler) (env : AttemptEnv) (nav : NavOut)
    (t : List Action)
    (hrestore : c.persistCookiesPerSession = true →
      env.session.isSome = true ∧ env.setCookiesFails = false ∧ env.getCookiesFails = false)
    (hnav : handleNavigation c = (Except.ok nav, t))
    (hrh : (responseHandler c.hasSessionPool nav.response env.pageUrl env.session
        env.request).result = Except.ok ())
    (hto : env.handlerBehavior = HandlerBehavior.exceedsTimeout) :
    (handleRequestFunction c env).result
      = Except.error (CrawlErr.timeout
          ("handlePageFunction timed out after " ++ toString c.handlePageTimeoutSecs
            ++ " seconds."))
    ∧ Action.markGoodA ∉ (handleRequestFunction c env).trace := by
  rw [handleRequestFunction_restore_ok c env (fun hp => ⟨(hrestore hp).1, (hrestore hp).2.1⟩)]
  dsimp only
  unfold tryBody
  rw [hnav]
  dsimp only
  rw [hrh]
  dsimp only
  have hshape := handleNavigation_trace_shape c
  rw [hnav] at hshape
  dsimp only at hshape
  have ht : Action.markGoodA ∉ t := by
    intro hmem2
    rcases hshape _ hmem2 with ⟨hid, h⟩ | h <;> simp at h
  have hacts : Action.markGoodA ∉ (responseHandler c.hasSessionPool nav.response env.pageUrl
      env.session env.request).acts := by
    intro hmem2
    rcases responseHandler_acts_shape c.hasSessionPool nav.response env.pageUrl env.session
      env.request _ hmem2 with h | h | h <;> simp at h
  by_cases hp : c.persistCookiesPerSession = true
  · obtain ⟨hs, hscf, hgcf⟩ := hrestore hp
    have hsome := responseHandler_session_isSome c.hasSessionPool nav.response env.pageUrl
      env.session env.request hs
    obtain ⟨s2, hs2⟩ := Option.isSome_iff_exists.mp hsome
    rw [saveCookiesStep_persist c env _ s2 hp hgcf hs2]
    dsimp only
    rw [hto]
    dsimp only
    constructor
    · rw [timeoutMessage_eq]
    · intro hmem
      by_cases hpcf : env.pageCloseFails = true <;>
        simp [hp, hpcf, List.mem_cons, List.mem_append, ht, hacts] at hmem
  · have hp2 : c.persistCookiesPerSession = false := by
      revert hp
      cases c.persistCookiesPerSession <;> simp
    rw [saveCookiesStep_skip c env _ hp2]
    dsimp only
    rw [hto]
    dsimp only
    constructor
    · rw [timeoutMessage_eq]
    · intro hmem
      by_cases hpcf : env.pageCloseFails = true <;>
        simp [hp2, hpcf, List.mem_cons, List.mem_append, ht, hacts] at hmem

/-- Witness for C6: the concrete crawler has a 1-second handler timeout; the timed-out
attempt fails with the message naming 1 second, and never marks the session good. -/
theorem claim6_witness :
    (handleRequestFunction cW
        { envW with handlerBehavior := HandlerBehavior.exceedsTimeout }).result
      = Except.error (CrawlErr.timeout
          ("handlePageFunction timed out after " ++ toString cW.handlePageTimeoutSecs
            ++ " seconds."))
    ∧ Action.markGoodA ∉ (handleRequestFunction cW
        { envW with handlerBehavior := HandlerBehavior.exceedsTimeout }).trace :=
  claim6_timeout_message_no_markGood cW
    { envW with handlerBehavior := HandlerBehavior.exceedsTimeout }
    { response := some (JsResponse.withStatus 200), optsAtNavigation := [] }
    [Action.navigate] (fun _ => ⟨rfl, rfl, rfl⟩) rfl rfl rfl

end ApifyBrowserCrawler
